import Mathlib

/-!
# Unenroll action handler and atomic disk store

A shallow embedding of

* `internal/pkg/agent/storage/disk_store.go` (`DiskStore.Save`), and
* `internal/pkg/agent/application/pipeline/actions/handlers/handler_action_unenroll.go`
  (`Unenroll.Handle`).

The operating system and the collaborators of the handler are not part of the
source; each call into them is given an explicit outcome (a field of `Faults`
or of `Acker`), and the embedded functions are total functions of the
filesystem state and of those outcomes.
-/

namespace ElasticAgent

/-! ## Errors -/

/-- Error classes of the agent's `errors` package; only `TypeFilesystem` is
used by the embedded code. -/
inductive ErrorType where
  | TypeUnexpected
  | TypeConfig
  | TypePath
  | TypeApplication
  | TypeNetwork
  | TypeFilesystem
  | TypeSecurity
  deriving DecidableEq, Repr

/-- Go `error` values that occur in the embedded code: `raw` is an error made
outside of it (returned by a system call, by the input reader or by a
collaborator), `errorf` is `fmt.Errorf(msg)`, and `wrapped` is
`errors.New(cause, msg, typ, errors.M(errors.MetaKeyPath, path))`. -/
inductive GoError where
  | raw (code : Nat)
  | errorf (msg : String)
  | wrapped (cause : GoError) (msg : String) (typ : ErrorType) (path : String)
  deriving DecidableEq, Repr

/-- A filesystem-typed error that carries the path `p` and the cause `c`. -/
def GoError.isFilesystemAt (e : GoError) (p : String) (c : GoError) : Prop :=
  ∃ msg, e = GoError.wrapped c msg ErrorType.TypeFilesystem p

/-! ## Filesystem -/

/-- A regular file: its bytes and its permission bits. -/
structure File where
  content : List Nat
  mode : Nat
  deriving DecidableEq, Repr

/-- The filesystem: which file, if any, is at each path. -/
abbrev FS := String → Option File

/-- The filesystem with file `f` at path `p`. -/
def FS.put (fs : FS) (p : String) (f : File) : FS :=
  fun q => if q = p then some f else fs q

/-- The filesystem with nothing at path `p`. -/
def FS.del (fs : FS) (p : String) : FS :=
  fun q => if q = p then none else fs q

/-- Bytes of the file at `p`, if there is one. -/
def FS.contentAt (fs : FS) (p : String) : Option (List Nat) :=
  (fs p).map File.content

/-- An `io.Reader`: it yields `data` and then ends with `err` (`none` is a
clean end of stream). -/
structure Reader where
  data : List Nat
  err : Option GoError
  deriving DecidableEq, Repr

/-- Outcome of every call that `DiskStore.Save` makes into the operating
system. `none` means that the call succeeds. `writeErr = some (n, e)` means
that the write side of `io.Copy` fails with `e` after `n` bytes. -/
structure Faults where
  openErr : Option GoError
  writeErr : Option (Nat × GoError)
  closeAfterCopyErr : Option GoError
  syncErr : Option GoError
  closeErr : Option GoError
  rotateErr : Option GoError
  chmodErr : Option GoError
  removeErr : Option GoError
  deriving DecidableEq, Repr

/-- No call fails. -/
def Faults.none : Faults :=
  ⟨Option.none, Option.none, Option.none, Option.none, Option.none, Option.none,
    Option.none, Option.none⟩

/-- Call `os.OpenFile(p, O_CREATE|O_TRUNC|O_WRONLY, perms)`: on success the
file at `p` is empty; a file that was already there keeps its mode, a new
one gets `perms`. On failure nothing changes. -/
def osOpenFileTrunc (err : Option GoError) (p : String) (perms : Nat) (fs : FS) :
    FS × Option GoError :=
  match err with
  | some e => (fs, some e)
  | Option.none =>
    match fs p with
    | some f => (fs.put p ⟨[], f.mode⟩, Option.none)
    | Option.none => (fs.put p ⟨[], perms⟩, Option.none)

/-- Call `io.Copy(fd, in)` with `fd` open on `p`: the bytes of `input` are
appended to the file until the write side fails, the reader fails, or the
stream ends. -/
def ioCopy (writeErr : Option (Nat × GoError)) (p : String) (input : Reader) (fs : FS) :
    FS × Option GoError :=
  match fs p with
  | Option.none => (fs, writeErr.map Prod.snd <|> input.err)
  | some f =>
    match writeErr with
    | some (n, e) => (fs.put p ⟨f.content ++ input.data.take n, f.mode⟩, some e)
    | Option.none => (fs.put p ⟨f.content ++ input.data, f.mode⟩, input.err)

/-- Call `fd.Sync()`: nothing changes in the files of this model; the call
reports `err`. -/
def fdSync (err : Option GoError) (fs : FS) : FS × Option GoError := (fs, err)

/-- Call `fd.Close()`: nothing changes in the files of this model; the call
reports `err`. -/
def fdClose (err : Option GoError) (fs : FS) : FS × Option GoError := (fs, err)

/-- Call `os.Remove(p)`: on success nothing is at `p` afterwards; on failure
nothing changes. -/
def osRemove (err : Option GoError) (p : String) (fs : FS) : FS × Option GoError :=
  match err with
  | some e => (fs, some e)
  | Option.none =>
    match fs p with
    | some _ => (fs.del p, Option.none)
    | Option.none => (fs, some (GoError.raw 2))

/-- Modelled from the spec: `file.SafeFileRotate(path, tempfile)` of
`libbeat/common/file` is not in the source tree; per the spec the temporary
file is atomically renamed onto `path`, replacing any prior content in one
indivisible operation. On failure nothing changes. -/
def SafeFileRotate (err : Option GoError) (path tempfile : String) (fs : FS) :
    FS × Option GoError :=
  match err with
  | some e => (fs, some e)
  | Option.none =>
    match fs tempfile with
    | some f => ((fs.del tempfile).put path f, Option.none)
    | Option.none => (fs, some (GoError.raw 2))

/-- Modelled from the spec: `acl.Chmod(path, perms)` of `hectane/go-acl` is
not in the source tree; per the spec it applies the permission bits to
`path`. On failure nothing changes. -/
def aclChmod (err : Option GoError) (path : String) (perms : Nat) (fs : FS) :
    FS × Option GoError :=
  match err with
  | some e => (fs, some e)
  | Option.none =>
    match fs path with
    | some f => (fs.put path ⟨f.content, perms⟩, Option.none)
    | Option.none => (fs, some (GoError.raw 2))

/-! ## DiskStore -/

/-- The unencrypted disk store: `target` is the path of the store file. -/
structure DiskStore where
  target : String
  deriving DecidableEq, Repr

/-- Constructor `NewDiskStore(target)`. -/
def NewDiskStore (target : String) : DiskStore := ⟨target⟩

/-- The name `d.target + ".tmp"` of the temporary file of `Save`. -/
def DiskStore.tmpFile (d : DiskStore) : String := d.target ++ ".tmp"

/-- The part of `DiskStore.Save` that runs after the temporary file was
opened and `defer os.Remove(tmpFile)` was registered. -/
def DiskStore.saveOpened (d : DiskStore) (perms : Nat) (ft : Faults) (input : Reader)
    (fs : FS) : FS × Option GoError :=
  let tmpFile := d.tmpFile
  match ioCopy ft.writeErr tmpFile input fs with
  | (fs2, some err) =>
    -- `_ = fd.Close()`: the result of the call is dropped
    ((fdClose ft.closeAfterCopyErr fs2).1,
      some (GoError.wrapped err "could not save content on disk"
        ErrorType.TypeFilesystem tmpFile))
  | (fs2, Option.none) =>
    -- `_ = fd.Sync()`: the result of the call is dropped
    match fdClose ft.closeErr (fdSync ft.syncErr fs2).1 with
    | (fs2c, some err) =>
      (fs2c, some (GoError.wrapped err "could not close temporary file"
        ErrorType.TypeFilesystem tmpFile))
    | (fs2c, Option.none) =>
      match SafeFileRotate ft.rotateErr d.target tmpFile fs2c with
      | (fs3, some err) =>
        (fs3, some (GoError.wrapped err ("could not replace target file " ++ d.target)
          ErrorType.TypeFilesystem d.target))
      | (fs3, Option.none) =>
        match aclChmod ft.chmodErr d.target perms fs3 with
        | (fs4, some err) =>
          (fs4, some (GoError.wrapped err
            ("could not set permissions target file " ++ d.target)
            ErrorType.TypeFilesystem d.target))
        | (fs4, Option.none) => (fs4, Option.none)

/-- The method `DiskStore.Save(in)`: open and truncate `target + ".tmp"`,
copy `in` into it, sync, close, rotate it onto `target`, set the permission
bits of `target`; the deferred `os.Remove(tmpFile)` runs on every return
after a successful open, and its result is dropped. -/
def DiskStore.Save (d : DiskStore) (perms : Nat) (ft : Faults) (input : Reader) (fs : FS) :
    FS × Option GoError :=
  let tmpFile := d.tmpFile
  match osOpenFileTrunc ft.openErr tmpFile perms fs with
  | (fs1, some err) =>
    (fs1, some (GoError.wrapped err ("could not save to " ++ tmpFile)
      ErrorType.TypeFilesystem tmpFile))
  | (fs1, Option.none) =>
    let r := d.saveOpened perms ft input fs1
    ((osRemove ft.removeErr tmpFile r.1).1, r.2)

/-! ## Actions and the Unenroll handler -/

/-- A `fleetapi.Action`: either an `*fleetapi.ActionUnenroll` with its
fields, or a value of another concrete type, given by its `%T` name and its
identifier. -/
inductive Action where
  | unenroll (ActionID : String) (ActionType : String) (IsDetected : Bool)
  | other (typeName : String) (ActionID : String)
  deriving DecidableEq, Repr

/-- The method `ID()` of an action. -/
def Action.ID : Action → String
  | Action.unenroll id _ _ => id
  | Action.other _ id => id

/-- Modelled from the spec: the state store behind the `stateStore` interface
(the spec's ActionLog) is not in the source tree. Per the spec it is an
ordered sequence of actions plus one ack token, persisted together at a
backing path through the disk store. -/
structure ActionLog where
  actions : List Action
  ackToken : String
  backing : DiskStore
  deriving DecidableEq, Repr

/-- Modelled from the spec: `add(action)` of the ActionLog, missing from the
source tree, appends to the in-memory ordered sequence. -/
def ActionLog.Add (s : ActionLog) (a : Action) : ActionLog :=
  { s with actions := s.actions ++ [a] }

/-- Modelled from the spec: `actions()` of the ActionLog, missing from the
source tree, returns the current in-memory sequence. -/
def ActionLog.Actions (s : ActionLog) : List Action := s.actions

/-- What the state store needs from its surroundings to save: the encoding of
its state into bytes (an implementation choice per the spec), the permission
bits `perms` of the storage package, and the outcome of the system calls. -/
structure Sys where
  encode : List Action → String → List Nat
  perms : Nat
  faults : Faults

/-- Modelled from the spec: `save()` of the ActionLog, missing from the
source tree, serializes the full action sequence and the ack token and
delegates to `DiskStore.Save` on the backing path; filesystem errors are
propagated unchanged. -/
def ActionLog.Save (sys : Sys) (s : ActionLog) (fs : FS) : FS × Option GoError :=
  s.backing.Save sys.perms sys.faults ⟨sys.encode s.actions s.ackToken, Option.none⟩ fs

/-- The `store.FleetAcker` passed to `Handle`: the results of its two
methods. -/
structure Acker where
  Ack : Action → Option GoError
  Commit : Option GoError

/-- A call made by `Unenroll.Handle` to one of its collaborators, with the
result of the call where it has one. `Route id grpProg` is
`dispatcher.Route(id, grpProg)` with the mapping as a list of entries;
`Closer c` is the call of the cancel function `c`. -/
inductive Event where
  | Route (id : String) (grpProg : List (String × List String))
  | Ack (a : Action) (result : Option GoError)
  | Commit (result : Option GoError)
  | Add (a : Action)
  | Save (result : Option GoError)
  | Closer (c : Nat)
  deriving DecidableEq, Repr

/-- Is the event a call of `dispatcher.Route`? -/
def Event.isRoute : Event → Bool
  | Event.Route _ _ => true
  | _ => false

/-- Is the event a call of `acker.Ack` or of `acker.Commit`? -/
def Event.isAcker : Event → Bool
  | Event.Ack _ _ => true
  | Event.Commit _ => true
  | _ => false

/-- Is the event a call of `acker.Commit`? -/
def Event.isCommit : Event → Bool
  | Event.Commit _ => true
  | _ => false

/-- Is the event a call of `stateStore.Add` or of `stateStore.Save`? -/
def Event.isStore : Event → Bool
  | Event.Add _ => true
  | Event.Save _ => true
  | _ => false

/-- Is the event a call of a closer? -/
def Event.isCloser : Event → Bool
  | Event.Closer _ => true
  | _ => false

/-- The Unenroll handler: the cancel functions `closers` (each entry named by
a number) and the state store, `none` for a nil `stateStore`. The logger is
kept as the lines it receives; the emitter is not used by `Handle`. -/
structure Unenroll where
  closers : List Nat
  stateStore : Option ActionLog
  deriving DecidableEq, Repr

/-- Constructor `NewUnenroll(log, emitter, dispatcher, closers, stateStore)`. -/
def NewUnenroll (closers : List Nat) (stateStore : Option ActionLog) : Unenroll :=
  ⟨closers, stateStore⟩

/-- What one call of `Handle` leaves behind: the returned error (`none` is
nil), the calls made to the collaborators in order, the debug lines, the
state store of the handler and the filesystem. -/
structure Outcome where
  err : Option GoError
  events : List Event
  debug : List (String × Action)
  stateStore : Option ActionLog
  fs : FS

/-- The loop `for _, c := range h.closers { c() }`. -/
def Unenroll.runClosers (h : Unenroll) : List Event :=
  h.closers.map Event.Closer

/-- The method `Unenroll.Handle(ctx, a, acker)`. -/
def Unenroll.Handle (sys : Sys) (h : Unenroll) (a : Action) (acker : Acker) (fs : FS) :
    Outcome :=
  let debug := [("handlerUnenroll: action \x27%+v\x27 received", a)]
  match a with
  | Action.other typeName _ =>
    ⟨some (GoError.errorf
        ("invalid type, expected ActionUnenroll and received " ++ typeName)),
      [], debug, h.stateStore, fs⟩
  | Action.unenroll _ _ IsDetected =>
    -- Providing empty map will close all pipelines
    let routed := [Event.Route a.ID []]
    if !IsDetected then
      -- ACK only events coming from fleet
      match acker.Ack a with
      | some err => ⟨some err, routed ++ [Event.Ack a (some err)], debug, h.stateStore, fs⟩
      | Option.none =>
        -- commit all acks before quitting
        match acker.Commit with
        | some err =>
          ⟨some err, routed ++ [Event.Ack a Option.none, Event.Commit (some err)], debug,
            h.stateStore, fs⟩
        | Option.none =>
          ⟨Option.none,
            routed ++ [Event.Ack a Option.none, Event.Commit Option.none] ++ h.runClosers,
            debug, h.stateStore, fs⟩
    else
      match h.stateStore with
      | some st =>
        -- backup action for future start to avoid starting fleet gateway loop
        let st1 := st.Add a
        let saved := st1.Save sys fs
        ⟨Option.none,
          routed ++ [Event.Add a, Event.Save saved.2] ++ h.runClosers,
          debug, some st1, saved.1⟩
      | Option.none =>
        ⟨Option.none, routed ++ h.runClosers, debug, h.stateStore, fs⟩

/-! ## Concrete inputs used by the examples -/

/-- Only `os.OpenFile` fails, with `e`. -/
def Faults.failOpen (e : GoError) : Faults := { Faults.none with openErr := some e }

/-- Only `fd.Sync` fails, with `e`. -/
def Faults.failSync (e : GoError) : Faults := { Faults.none with syncErr := some e }

/-- The write side of `io.Copy` fails with `e` after `n` bytes, and the
deferred `os.Remove` fails with `e` too. -/
def Faults.failWriteAndRemove (n : Nat) (e : GoError) : Faults :=
  { Faults.none with writeErr := some (n, e), removeErr := some e }

/-- A filesystem with nothing in it. -/
def FS.empty : FS := fun _ => none

/-- A filesystem in which a crashed save left two bytes at `state.yml.tmp`,
and nothing else. -/
def FS.staleTmp : FS := FS.empty.put "state.yml.tmp" ⟨[9, 9], 384⟩

/-- A state-store surrounding with a toy encoding (the number of actions
followed by the characters of the ack token), mode 0600 and the faults `ft`. -/
def Sys.toy (ft : Faults) : Sys :=
  ⟨fun as t => as.length :: t.toList.map Char.toNat, 384, ft⟩

/-- An acker whose two methods succeed. -/
def Acker.ok : Acker := ⟨fun _ => none, none⟩

/-- An empty state store backed by `state.yml`. -/
def ActionLog.fresh : ActionLog := ⟨[], "", NewDiskStore "state.yml"⟩

/-! ## Helper lemmas -/

/-- The temporary file is never the target itself. -/
theorem tmpFile_ne_target (d : DiskStore) : d.tmpFile ≠ d.target := by
  intro h
  have h2 := congrArg String.length h
  simp [DiskStore.tmpFile, String.length_append] at h2
  exact absurd h2 (by decide)

/-- Calls of closers made by the closing loop, counted per closer. -/
theorem count_closer_map (l : List Nat) (c : Nat) :
    (l.map Event.Closer).count (Event.Closer c) = l.count c := by
  induction l with
  | nil => rfl
  | cons x xs ih =>
    by_cases hx : x = c
    · subst hx; simp [ih]
    · have hx2 : Event.Closer c ≠ Event.Closer x := fun hh => hx (Event.Closer.inj hh).symm
      have hx3 : c ≠ x := fun hh => hx hh.symm
      rw [List.map_cons, List.count_cons_of_ne hx2, List.count_cons_of_ne hx3, ih]

/-- When `Save` returns nil the target holds the bytes of the input. -/
theorem save_nil_content (d : DiskStore) (perms : Nat) (ft : Faults) (input : Reader)
    (fs : FS) (hnil : (d.Save perms ft input fs).2 = none) :
    (d.Save perms ft input fs).1.contentAt d.target = some input.data := by
  have hne := tmpFile_ne_target d
  have hne2 : d.target ≠ d.tmpFile := fun h => hne h.symm
  rcases ft with ⟨o, w, cc, sy, c, r, ch, rm⟩
  rcases input with ⟨data, ie⟩
  revert hnil
  cases o <;> cases w <;> cases ie <;> cases c <;> cases r <;> cases ch <;> cases rm <;>
    cases hfs : fs d.tmpFile <;>
    simp [DiskStore.Save, DiskStore.saveOpened, osOpenFileTrunc, ioCopy, fdClose, fdSync,
      SafeFileRotate, aclChmod, osRemove, FS.put, FS.del, FS.contentAt, hfs, hne, hne2]

/-! ## Theorems about `Unenroll.Handle` -/

/-- C1: for an Unenroll action with `IsDetected = false`, when `acker.Ack`
fails `Handle` returns exactly that error, having called only `Route` and
`Ack` (no `Commit`, no closer); when `Ack` succeeds and `acker.Commit` fails
`Handle` returns exactly that error, having called only `Route`, `Ack` and
`Commit` (no closer). -/
theorem handle_remote_failure_aborts (sys : Sys) (h : Unenroll) (id ty : String)
    (acker : Acker) (fs : FS) :
    (∀ e, acker.Ack (Action.unenroll id ty false) = some e →
      (h.Handle sys (Action.unenroll id ty false) acker fs).err = some e ∧
      (h.Handle sys (Action.unenroll id ty false) acker fs).events =
        [Event.Route id [], Event.Ack (Action.unenroll id ty false) (some e)] ∧
      (∀ ev ∈ (h.Handle sys (Action.unenroll id ty false) acker fs).events,
        ev.isCommit = false ∧ ev.isCloser = false)) ∧
    (acker.Ack (Action.unenroll id ty false) = none → ∀ e, acker.Commit = some e →
      (h.Handle sys (Action.unenroll id ty false) acker fs).err = some e ∧
      (h.Handle sys (Action.unenroll id ty false) acker fs).events =
        [Event.Route id [], Event.Ack (Action.unenroll id ty false) none,
          Event.Commit (some e)] ∧
      (∀ ev ∈ (h.Handle sys (Action.unenroll id ty false) acker fs).events,
        ev.isCloser = false)) := by
  constructor
  · intro e he
    simp [Unenroll.Handle, he, Action.ID, Event.isCommit, Event.isCloser]
  · intro hack e he
    simp [Unenroll.Handle, hack, he, Action.ID, Event.isCloser]

/-- Witness of C1: with two closers held, an `Ack` that fails with error 7
makes `Handle` return error 7 after `Route` and `Ack` only, and a `Commit`
that fails with error 9 after a good `Ack` makes `Handle` return error 9. -/
theorem handle_remote_failure_aborts_witness :
    ((NewUnenroll [0, 1] none).Handle ⟨fun _ _ => [], 384, Faults.none⟩
        (Action.unenroll "a1" "UNENROLL" false) ⟨fun _ => some (GoError.raw 7), none⟩
        (fun _ => none)).err = some (GoError.raw 7) ∧
    ((NewUnenroll [0, 1] none).Handle ⟨fun _ _ => [], 384, Faults.none⟩
        (Action.unenroll "a1" "UNENROLL" false) ⟨fun _ => none, some (GoError.raw 9)⟩
        (fun _ => none)).err = some (GoError.raw 9) :=
  ⟨((handle_remote_failure_aborts ⟨fun _ _ => [], 384, Faults.none⟩ (NewUnenroll [0, 1] none)
      "a1" "UNENROLL" ⟨fun _ => some (GoError.raw 7), none⟩ (fun _ => none)).1
      (GoError.raw 7) rfl).1,
   ((handle_remote_failure_aborts ⟨fun _ _ => [], 384, Faults.none⟩ (NewUnenroll [0, 1] none)
      "a1" "UNENROLL" ⟨fun _ => none, some (GoError.raw 9)⟩ (fun _ => none)).2
      rfl (GoError.raw 9) rfl).1⟩

/-- C2: for an action whose concrete type is not `*fleetapi.ActionUnenroll`,
`Handle` returns a non-nil error that names the received type, and calls no
collaborator: no `Route`, `Ack`, `Commit`, `Add`, `Save` and no closer; the
state store and the files are left as they were. -/
theorem handle_wrong_type_no_effects (sys : Sys) (h : Unenroll) (typeName id : String)
    (acker : Acker) (fs : FS) :
    (h.Handle sys (Action.other typeName id) acker fs).err =
      some (GoError.errorf
        ("invalid type, expected ActionUnenroll and received " ++ typeName)) ∧
    (h.Handle sys (Action.other typeName id) acker fs).err ≠ none ∧
    (h.Handle sys (Action.other typeName id) acker fs).events = [] ∧
    (h.Handle sys (Action.other typeName id) acker fs).stateStore = h.stateStore ∧
    (h.Handle sys (Action.other typeName id) acker fs).fs = fs := by
  simp [Unenroll.Handle]

/-- Counterexample to C3 as stated: on an action of another type `Handle`
returns an error although `dispatcher.Route` was never called. -/
theorem handle_error_without_route :
    ((NewUnenroll [0] none).Handle ⟨fun _ _ => [], 384, Faults.none⟩
        (Action.other "*fleetapi.ActionUnknown" "a1") ⟨fun _ => none, none⟩
        (fun _ => none)).err ≠ none ∧
    ¬ (∃ ev ∈ ((NewUnenroll [0] none).Handle ⟨fun _ _ => [], 384, Faults.none⟩
        (Action.other "*fleetapi.ActionUnknown" "a1") ⟨fun _ => none, none⟩
        (fun _ => none)).events, ev.isRoute = true) := by
  simp [Unenroll.Handle]

/-- C3, amended: for every call of `Handle` on an Unenroll action that
returns an error, `Route` was called first with the action id and the empty
mapping, no closer was called, `Add` and `Save` were not called, and the
state store and the files are left as they were. -/
theorem handle_unenroll_error_state (sys : Sys) (h : Unenroll) (id ty : String)
    (det : Bool) (acker : Acker) (fs : FS)
    (herr : (h.Handle sys (Action.unenroll id ty det) acker fs).err ≠ none) :
    (h.Handle sys (Action.unenroll id ty det) acker fs).events.head? =
      some (Event.Route id []) ∧
    (∀ ev ∈ (h.Handle sys (Action.unenroll id ty det) acker fs).events,
      ev.isCloser = false ∧ ev.isStore = false) ∧
    (h.Handle sys (Action.unenroll id ty det) acker fs).stateStore = h.stateStore ∧
    (h.Handle sys (Action.unenroll id ty det) acker fs).fs = fs := by
  cases det <;> cases hack : acker.Ack (Action.unenroll id ty false) <;>
    cases hcom : acker.Commit <;> cases hst : h.stateStore <;>
    simp_all [Unenroll.Handle, Action.ID, Event.isCloser, Event.isStore]

/-- Witness of C3, amended: a remote Unenroll whose `Ack` fails. -/
theorem handle_unenroll_error_state_witness :
    ((NewUnenroll [0] none).Handle ⟨fun _ _ => [], 384, Faults.none⟩
        (Action.unenroll "a1" "UNENROLL" false) ⟨fun _ => some (GoError.raw 7), none⟩
        (fun _ => none)).events.head? = some (Event.Route "a1" []) :=
  (handle_unenroll_error_state ⟨fun _ _ => [], 384, Faults.none⟩ (NewUnenroll [0] none)
    "a1" "UNENROLL" false ⟨fun _ => some (GoError.raw 7), none⟩ (fun _ => none)
    (by simp [Unenroll.Handle])).1

/-- C4: for every Unenroll action, whatever `IsDetected`, the results of the
acker and the state store are, the first call of `Handle` is
`dispatcher.Route(a.ID(), m)` with `m` the empty mapping, and no later call
is a `Route`: it comes before every `Ack`, `Commit`, `Add`, `Save` and
closer, and it is made once. -/
theorem handle_route_first_once (sys : Sys) (h : Unenroll) (id ty : String)
    (det : Bool) (acker : Acker) (fs : FS) :
    ∃ rest, (h.Handle sys (Action.unenroll id ty det) acker fs).events =
        Event.Route (Action.unenroll id ty det).ID [] :: rest ∧
      (Action.unenroll id ty det).ID = id ∧
      ∀ ev ∈ rest, ev.isRoute = false := by
  cases det <;> cases hack : acker.Ack (Action.unenroll id ty false) <;>
    cases hcom : acker.Commit <;> cases hst : h.stateStore <;>
    simp [Unenroll.Handle, Unenroll.runClosers, Action.ID, Event.isRoute, hack, hcom, hst]

/-- C5: when `Handle` returns nil on an Unenroll action, its calls are
`Route`, then the calls of the decision step (`Ack` and `Commit` for a remote
action, `Add` and `Save` for a detected action with a state store, none for a
detected action without one), then one call per entry of `h.closers`; each
closer is called as many times as it is held. For a remote action whose `Ack`
and `Commit` succeed the calls are exactly `Route`, `Ack`, `Commit` and the
closers, and the result is nil. -/
theorem handle_success_runs_closers (sys : Sys) (h : Unenroll) (id ty : String)
    (det : Bool) (acker : Acker) (fs : FS) :
    ((h.Handle sys (Action.unenroll id ty det) acker fs).err = none →
      ∃ decision,
        (h.Handle sys (Action.unenroll id ty det) acker fs).events =
          Event.Route id [] :: (decision ++ h.closers.map Event.Closer) ∧
        (∀ ev ∈ decision, ev.isCloser = false ∧ ev.isRoute = false) ∧
        ((det = false ∧ decision =
            [Event.Ack (Action.unenroll id ty det) none, Event.Commit none]) ∨
          (det = true ∧ ∃ st, h.stateStore = some st ∧ decision =
            [Event.Add (Action.unenroll id ty det),
              Event.Save ((st.Add (Action.unenroll id ty det)).Save sys fs).2]) ∨
          (det = true ∧ h.stateStore = none ∧ decision = [])) ∧
        (∀ c, (h.Handle sys (Action.unenroll id ty det) acker fs).events.count
          (Event.Closer c) = h.closers.count c)) ∧
    (det = false → acker.Ack (Action.unenroll id ty det) = none → acker.Commit = none →
      (h.Handle sys (Action.unenroll id ty det) acker fs).err = none ∧
      (h.Handle sys (Action.unenroll id ty det) acker fs).events =
        [Event.Route id [], Event.Ack (Action.unenroll id ty det) none, Event.Commit none]
          ++ h.closers.map Event.Closer) := by
  constructor
  · intro hnil
    cases det
    · cases hack : acker.Ack (Action.unenroll id ty false) with
      | some e => simp [Unenroll.Handle, hack] at hnil
      | none =>
        cases hcom : acker.Commit with
        | some e => simp [Unenroll.Handle, hack, hcom] at hnil
        | none =>
          refine ⟨[Event.Ack (Action.unenroll id ty false) none, Event.Commit none], ?_, ?_,
            ?_, ?_⟩
          · simp [Unenroll.Handle, Unenroll.runClosers, Action.ID, hack, hcom]
          · simp [Event.isCloser, Event.isRoute]
          · simp
          · intro c
            simp [Unenroll.Handle, Unenroll.runClosers, Action.ID, hack, hcom,
              List.count_cons, count_closer_map]
    · cases hst : h.stateStore with
      | none =>
        refine ⟨[], ?_, ?_, ?_, ?_⟩
        · simp [Unenroll.Handle, Unenroll.runClosers, Action.ID, hst]
        · simp
        · simp
        · intro c
          simp [Unenroll.Handle, Unenroll.runClosers, Action.ID, hst,
            List.count_cons, count_closer_map]
      | some st =>
        refine ⟨[Event.Add (Action.unenroll id ty true),
          Event.Save ((st.Add (Action.unenroll id ty true)).Save sys fs).2], ?_, ?_, ?_, ?_⟩
        · simp [Unenroll.Handle, Unenroll.runClosers, Action.ID, hst]
        · simp [Event.isCloser, Event.isRoute]
        · simp
        · intro c
          simp [Unenroll.Handle, Unenroll.runClosers, Action.ID, hst,
            List.count_cons, count_closer_map]
  · intro hdet hack hcom
    subst hdet
    simp [Unenroll.Handle, Unenroll.runClosers, Action.ID, hack, hcom]

/-- Witness of C5: the remote action `a1` with a good acker and two closers
held returns nil, each closer is called as often as it is held, and the calls
are `Route`, `Ack`, `Commit`, closer 0, closer 1. -/
theorem handle_success_runs_closers_witness :
    (∀ c, ((NewUnenroll [0, 1] none).Handle (Sys.toy Faults.none)
        (Action.unenroll "a1" "UNENROLL" false) Acker.ok FS.empty).events.count
          (Event.Closer c) = (NewUnenroll [0, 1] none).closers.count c) ∧
    ((NewUnenroll [0, 1] none).Handle (Sys.toy Faults.none)
        (Action.unenroll "a1" "UNENROLL" false) Acker.ok FS.empty).err = none ∧
    ((NewUnenroll [0, 1] none).Handle (Sys.toy Faults.none)
        (Action.unenroll "a1" "UNENROLL" false) Acker.ok FS.empty).events =
      [Event.Route "a1" [], Event.Ack (Action.unenroll "a1" "UNENROLL" false) none,
        Event.Commit none] ++ (NewUnenroll [0, 1] none).closers.map Event.Closer :=
  ⟨((handle_success_runs_closers (Sys.toy Faults.none) (NewUnenroll [0, 1] none) "a1"
      "UNENROLL" false Acker.ok FS.empty).1 rfl).elim (fun _ hx => hx.2.2.2),
   (handle_success_runs_closers (Sys.toy Faults.none) (NewUnenroll [0, 1] none) "a1"
      "UNENROLL" false Acker.ok FS.empty).2 rfl rfl rfl⟩

/-- C10: for an Unenroll action with `IsDetected = true` and a state store,
`Handle` calls `Route`, then `Add(action)` once, then `Save()` once, then the
closers, never `Ack` or `Commit`, and returns nil whatever `Save` returned:
also when `Save` returned an error every closer is called and the result is
nil. -/
theorem handle_detected_ignores_save_result (sys : Sys) (closers : List Nat)
    (st : ActionLog) (id ty : String) (acker : Acker) (fs : FS) :
    ((NewUnenroll closers (some st)).Handle sys (Action.unenroll id ty true) acker fs).events =
      [Event.Route id [], Event.Add (Action.unenroll id ty true),
        Event.Save ((st.Add (Action.unenroll id ty true)).Save sys fs).2]
        ++ closers.map Event.Closer ∧
    (∀ ev ∈ ((NewUnenroll closers (some st)).Handle sys (Action.unenroll id ty true)
      acker fs).events, ev.isAcker = false) ∧
    ((NewUnenroll closers (some st)).Handle sys (Action.unenroll id ty true) acker fs).err =
      none ∧
    (∀ e, ((st.Add (Action.unenroll id ty true)).Save sys fs).2 = some e →
      ((NewUnenroll closers (some st)).Handle sys (Action.unenroll id ty true)
        acker fs).err = none ∧
      ((NewUnenroll closers (some st)).Handle sys (Action.unenroll id ty true)
        acker fs).events =
          [Event.Route id [], Event.Add (Action.unenroll id ty true), Event.Save (some e)]
            ++ closers.map Event.Closer) := by
  refine ⟨?_, ?_, ?_, ?_⟩
  · simp [Unenroll.Handle, Unenroll.runClosers, NewUnenroll, Action.ID]
  · simp [Unenroll.Handle, Unenroll.runClosers, NewUnenroll, Action.ID, Event.isAcker]
  · simp [Unenroll.Handle, NewUnenroll]
  · intro e he
    simp [Unenroll.Handle, Unenroll.runClosers, NewUnenroll, Action.ID, he]

/-- Witness of C10: the open of the temporary file fails with error 13, so
`Save` returns an error, and `Handle` still returns nil. -/
theorem handle_detected_ignores_save_result_witness :
    ((NewUnenroll [0, 1] (some ActionLog.fresh)).Handle
        (Sys.toy (Faults.failOpen (GoError.raw 13)))
        (Action.unenroll "a1" "UNENROLL" true) Acker.ok FS.empty).err = none :=
  ((handle_detected_ignores_save_result (Sys.toy (Faults.failOpen (GoError.raw 13))) [0, 1]
    ActionLog.fresh "a1" "UNENROLL" Acker.ok FS.empty).2.2.2
    (GoError.wrapped (GoError.raw 13) "could not save to state.yml.tmp"
      ErrorType.TypeFilesystem "state.yml.tmp") (by rfl)).1

/-- Counterexample to C6 as stated: the open of the temporary file fails,
`Save` returns an error that `Handle` drops, `Handle` returns nil, the action
is in the in-memory sequence, and the backing file does not exist. -/
theorem handle_success_without_persistence :
    ((NewUnenroll [0] (some ActionLog.fresh)).Handle
        (Sys.toy (Faults.failOpen (GoError.raw 13)))
        (Action.unenroll "a1" "UNENROLL" true) Acker.ok FS.empty).err = none ∧
    ((NewUnenroll [0] (some ActionLog.fresh)).Handle
        (Sys.toy (Faults.failOpen (GoError.raw 13)))
        (Action.unenroll "a1" "UNENROLL" true) Acker.ok FS.empty).stateStore =
      some ⟨[Action.unenroll "a1" "UNENROLL" true], "", NewDiskStore "state.yml"⟩ ∧
    ((NewUnenroll [0] (some ActionLog.fresh)).Handle
        (Sys.toy (Faults.failOpen (GoError.raw 13)))
        (Action.unenroll "a1" "UNENROLL" true) Acker.ok FS.empty).fs.contentAt "state.yml" =
      none ∧
    ((NewUnenroll [0] (some ActionLog.fresh)).Handle
        (Sys.toy (Faults.failOpen (GoError.raw 13)))
        (Action.unenroll "a1" "UNENROLL" true) Acker.ok FS.empty).fs.contentAt "state.yml" ≠
      some ((Sys.toy (Faults.failOpen (GoError.raw 13))).encode
        [Action.unenroll "a1" "UNENROLL" true] "") := by
  refine ⟨rfl, rfl, rfl, ?_⟩
  simp [Unenroll.Handle, NewUnenroll, ActionLog.fresh, ActionLog.Save, ActionLog.Add,
    DiskStore.Save, osOpenFileTrunc, Sys.toy, Faults.failOpen, FS.contentAt, FS.empty]

/-- C6, amended: for an Unenroll action with `IsDetected = true` and a state
store, `Handle` returns nil, the in-memory sequence of the store is the
previous one with the action appended and the ack token is unchanged; and
when the call of `Save` made by `Handle` returned nil, the backing file holds
the encoding of that in-memory state. -/
theorem handle_detected_persists (sys : Sys) (closers : List Nat) (st : ActionLog)
    (id ty : String) (acker : Acker) (fs : FS) :
    ((NewUnenroll closers (some st)).Handle sys (Action.unenroll id ty true)
      acker fs).err = none ∧
    ∃ st1,
      ((NewUnenroll closers (some st)).Handle sys (Action.unenroll id ty true)
        acker fs).stateStore = some st1 ∧
      st1.Actions = st.Actions ++ [Action.unenroll id ty true] ∧
      st1.ackToken = st.ackToken ∧ st1.backing = st.backing ∧
      (Event.Save none ∈ ((NewUnenroll closers (some st)).Handle sys
          (Action.unenroll id ty true) acker fs).events →
        ((NewUnenroll closers (some st)).Handle sys (Action.unenroll id ty true)
          acker fs).fs.contentAt st.backing.target =
            some (sys.encode st1.Actions st1.ackToken)) := by
  refine ⟨by simp [Unenroll.Handle, NewUnenroll],
    st.Add (Action.unenroll id ty true), ?_, ?_, ?_, ?_, ?_⟩
  · simp [Unenroll.Handle, NewUnenroll]
  · simp [ActionLog.Add, ActionLog.Actions]
  · simp [ActionLog.Add]
  · simp [ActionLog.Add]
  · intro hmem
    have hsave : ((st.Add (Action.unenroll id ty true)).Save sys fs).2 = none := by
      simp [Unenroll.Handle, Unenroll.runClosers, NewUnenroll] at hmem
      exact hmem.symm
    have hcont := save_nil_content st.backing sys.perms sys.faults
      ⟨sys.encode (st.Add (Action.unenroll id ty true)).actions st.ackToken, none⟩ fs
      (by simpa [ActionLog.Save, ActionLog.Add] using hsave)
    simpa [Unenroll.Handle, NewUnenroll, ActionLog.Save, ActionLog.Add, ActionLog.Actions]
      using hcont

/-- Witness of C6, amended: without faults the detected action `a1` is
appended to the fresh store, `Save` returns nil and `state.yml` holds the
encoding of the store with that one action. -/
theorem handle_detected_persists_witness :
    ∃ st1,
      ((NewUnenroll [0] (some ActionLog.fresh)).Handle (Sys.toy Faults.none)
        (Action.unenroll "a1" "UNENROLL" true) Acker.ok FS.empty).stateStore = some st1 ∧
      ((NewUnenroll [0] (some ActionLog.fresh)).Handle (Sys.toy Faults.none)
        (Action.unenroll "a1" "UNENROLL" true) Acker.ok FS.empty).fs.contentAt
          ActionLog.fresh.backing.target =
        some ((Sys.toy Faults.none).encode st1.Actions st1.ackToken) :=
  (handle_detected_persists (Sys.toy Faults.none) [0] ActionLog.fresh "a1" "UNENROLL"
    Acker.ok FS.empty).2.imp (fun _ hx => ⟨hx.1, hx.2.2.2.2 (by decide)⟩)

/-! ## Theorems about `DiskStore.Save` -/

/-- Counterexample to C7 as stated: the sync of the temporary file fails
with error 5, every other step succeeds, and `Save` returns nil. -/
theorem save_sync_failure_dropped :
    (fdSync (Faults.failSync (GoError.raw 5)).syncErr FS.empty).2 = some (GoError.raw 5) ∧
    ((NewDiskStore "state.yml").Save 384 (Faults.failSync (GoError.raw 5))
      ⟨[1, 2, 3], none⟩ FS.empty).2 = none := by
  constructor <;> rfl

/-- C7, amended: when opening the temporary file, copying the content (its
read or its write side), closing the file, rotating it onto the target or
setting the permission bits fails, `Save` returns a filesystem-typed error
that carries the cause of the first failing step and its path (the temporary
file for open, copy and close, the target for rotate and chmod); the result
of the sync is dropped; `Save` returns nil exactly when each of those steps
other than the sync succeeded. -/
theorem save_reports_first_failure (d : DiskStore) (perms : Nat) (ft : Faults)
    (input : Reader) (fs : FS) :
    (∀ e, ft.openErr = some e →
      ∃ err, (d.Save perms ft input fs).2 = some err ∧ err.isFilesystemAt d.tmpFile e) ∧
    (ft.openErr = none → ∀ n e, ft.writeErr = some (n, e) →
      ∃ err, (d.Save perms ft input fs).2 = some err ∧ err.isFilesystemAt d.tmpFile e) ∧
    (ft.openErr = none → ft.writeErr = none → ∀ e, input.err = some e →
      ∃ err, (d.Save perms ft input fs).2 = some err ∧ err.isFilesystemAt d.tmpFile e) ∧
    (ft.openErr = none → ft.writeErr = none → input.err = none →
      ∀ e, ft.closeErr = some e →
      ∃ err, (d.Save perms ft input fs).2 = some err ∧ err.isFilesystemAt d.tmpFile e) ∧
    (ft.openErr = none → ft.writeErr = none → input.err = none → ft.closeErr = none →
      ∀ e, ft.rotateErr = some e →
      ∃ err, (d.Save perms ft input fs).2 = some err ∧ err.isFilesystemAt d.target e) ∧
    (ft.openErr = none → ft.writeErr = none → input.err = none → ft.closeErr = none →
      ft.rotateErr = none → ∀ e, ft.chmodErr = some e →
      ∃ err, (d.Save perms ft input fs).2 = some err ∧ err.isFilesystemAt d.target e) ∧
    ((d.Save perms ft input fs).2 = none ↔
      ft.openErr = none ∧ ft.writeErr = none ∧ input.err = none ∧ ft.closeErr = none ∧
      ft.rotateErr = none ∧ ft.chmodErr = none) := by
  have hne := tmpFile_ne_target d
  have hne2 : d.target ≠ d.tmpFile := fun h => hne h.symm
  rcases ft with ⟨o, w, cc, sy, c, r, ch, rm⟩
  rcases input with ⟨data, ie⟩
  refine ⟨?_, ?_, ?_, ?_, ?_, ?_, ?_⟩
  · intro e he
    obtain rfl : o = some e := he
    simp [DiskStore.Save, osOpenFileTrunc, GoError.isFilesystemAt]
  · intro ho n e hw
    obtain rfl : o = none := ho
    obtain rfl : w = some (n, e) := hw
    cases hfs : fs d.tmpFile <;>
      simp [DiskStore.Save, DiskStore.saveOpened, osOpenFileTrunc, ioCopy, fdClose, fdSync,
      SafeFileRotate, aclChmod, osRemove, FS.put, FS.del, GoError.isFilesystemAt, hfs, hne,
      hne2]
  · intro ho hw e hi
    obtain rfl : o = none := ho
    obtain rfl : w = none := hw
    obtain rfl : ie = some e := hi
    cases hfs : fs d.tmpFile <;>
      simp [DiskStore.Save, DiskStore.saveOpened, osOpenFileTrunc, ioCopy, fdClose, fdSync,
      SafeFileRotate, aclChmod, osRemove, FS.put, FS.del, GoError.isFilesystemAt, hfs, hne,
      hne2]
  · intro ho hw hi e hc
    obtain rfl : o = none := ho
    obtain rfl : w = none := hw
    obtain rfl : ie = none := hi
    obtain rfl : c = some e := hc
    cases hfs : fs d.tmpFile <;>
      simp [DiskStore.Save, DiskStore.saveOpened, osOpenFileTrunc, ioCopy, fdClose, fdSync,
      SafeFileRotate, aclChmod, osRemove, FS.put, FS.del, GoError.isFilesystemAt, hfs, hne,
      hne2]
  · intro ho hw hi hc e hr
    obtain rfl : o = none := ho
    obtain rfl : w = none := hw
    obtain rfl : ie = none := hi
    obtain rfl : c = none := hc
    obtain rfl : r = some e := hr
    cases hfs : fs d.tmpFile <;>
      simp [DiskStore.Save, DiskStore.saveOpened, osOpenFileTrunc, ioCopy, fdClose, fdSync,
      SafeFileRotate, aclChmod, osRemove, FS.put, FS.del, GoError.isFilesystemAt, hfs, hne,
      hne2]
  · intro ho hw hi hc hr e hch
    obtain rfl : o = none := ho
    obtain rfl : w = none := hw
    obtain rfl : ie = none := hi
    obtain rfl : c = none := hc
    obtain rfl : r = none := hr
    obtain rfl : ch = some e := hch
    cases hfs : fs d.tmpFile <;>
      simp [DiskStore.Save, DiskStore.saveOpened, osOpenFileTrunc, ioCopy, fdClose, fdSync,
      SafeFileRotate, aclChmod, osRemove, FS.put, FS.del, GoError.isFilesystemAt, hfs, hne,
      hne2]
  · cases o <;> cases w <;> cases ie <;> cases c <;> cases r <;> cases ch <;>
      cases hfs : fs d.tmpFile <;>
      simp [DiskStore.Save, DiskStore.saveOpened, osOpenFileTrunc, ioCopy, fdClose, fdSync,
      SafeFileRotate, aclChmod, osRemove, FS.put, FS.del, GoError.isFilesystemAt, hfs, hne,
      hne2]

/-- Witness of C7, amended: an open that fails with error 13 gives a
filesystem-typed error on `state.yml.tmp` with cause 13. -/
theorem save_reports_first_failure_witness :
    ∃ err, ((NewDiskStore "state.yml").Save 384 (Faults.failOpen (GoError.raw 13))
        ⟨[1, 2, 3], none⟩ FS.empty).2 = some err ∧
      err.isFilesystemAt (NewDiskStore "state.yml").tmpFile (GoError.raw 13) :=
  (save_reports_first_failure (NewDiskStore "state.yml") 384
    (Faults.failOpen (GoError.raw 13)) ⟨[1, 2, 3], none⟩ FS.empty).1 (GoError.raw 13) rfl

/-- C8: when `Save` fails while opening the temporary file, copying the
content or closing the file, the target is what it was before the call (the
same file, or still absent); when `Save` returns nil, or fails only in the
permission step, the target holds exactly the bytes of the input; and in
every outcome the target holds either its content from before the call or
the complete bytes of the input. -/
theorem save_target_old_or_new (d : DiskStore) (perms : Nat) (ft : Faults)
    (input : Reader) (fs : FS) :
    ((ft.openErr ≠ none ∨ ft.writeErr ≠ none ∨ input.err ≠ none ∨ ft.closeErr ≠ none) →
      (d.Save perms ft input fs).2 ≠ none ∧
      (d.Save perms ft input fs).1 d.target = fs d.target) ∧
    (((d.Save perms ft input fs).2 = none ∨
        (ft.openErr = none ∧ ft.writeErr = none ∧ input.err = none ∧ ft.closeErr = none ∧
          ft.rotateErr = none ∧ ft.chmodErr ≠ none)) →
      (d.Save perms ft input fs).1.contentAt d.target = some input.data) ∧
    ((d.Save perms ft input fs).1.contentAt d.target = fs.contentAt d.target ∨
      (d.Save perms ft input fs).1.contentAt d.target = some input.data) := by
  have hne := tmpFile_ne_target d
  have hne2 : d.target ≠ d.tmpFile := fun h => hne h.symm
  rcases ft with ⟨o, w, cc, sy, c, r, ch, rm⟩
  rcases input with ⟨data, ie⟩
  cases o <;> cases w <;> cases ie <;> cases c <;> cases r <;> cases ch <;> cases rm <;>
    cases hfs : fs d.tmpFile <;>
    simp [DiskStore.Save, DiskStore.saveOpened, osOpenFileTrunc, ioCopy, fdClose, fdSync,
      SafeFileRotate, aclChmod, osRemove, FS.put, FS.del, FS.contentAt, hfs, hne, hne2]

/-- Witness of C8: a write that fails after one byte leaves the old bytes of
`state.yml` in place. -/
theorem save_target_old_or_new_witness :
    ((NewDiskStore "state.yml").Save 384 (Faults.failWriteAndRemove 1 (GoError.raw 28))
      ⟨[1, 2, 3], none⟩ (FS.empty.put "state.yml" ⟨[7, 7], 384⟩)).1 "state.yml" =
      some ⟨[7, 7], 384⟩ :=
  ((save_target_old_or_new (NewDiskStore "state.yml") 384
    (Faults.failWriteAndRemove 1 (GoError.raw 28)) ⟨[1, 2, 3], none⟩
    (FS.empty.put "state.yml" ⟨[7, 7], 384⟩)).1 (Or.inr (Or.inl (by decide)))).2

/-- Counterexample to C9 as stated: with a stale `state.yml.tmp` present, a
`Save` whose open fails returns an error and the stale file is still there;
and a `Save` whose copy fails and whose deferred removal fails too returns
an error and leaves the partly written temporary file. -/
theorem save_can_leave_tmp :
    (((NewDiskStore "state.yml").Save 384 (Faults.failOpen (GoError.raw 13))
        ⟨[1, 2, 3], none⟩ FS.staleTmp).2 ≠ none ∧
      ((NewDiskStore "state.yml").Save 384 (Faults.failOpen (GoError.raw 13))
        ⟨[1, 2, 3], none⟩ FS.staleTmp).1 "state.yml.tmp" = some ⟨[9, 9], 384⟩) ∧
    (((NewDiskStore "state.yml").Save 384 (Faults.failWriteAndRemove 1 (GoError.raw 28))
        ⟨[1, 2, 3], none⟩ FS.empty).2 ≠ none ∧
      ((NewDiskStore "state.yml").Save 384 (Faults.failWriteAndRemove 1 (GoError.raw 28))
        ⟨[1, 2, 3], none⟩ FS.empty).1 "state.yml.tmp" = some ⟨[1], 384⟩) := by
  refine ⟨⟨by decide, by decide⟩, ⟨by decide, by decide⟩⟩

/-- C9, amended: after a `Save` that returns nil there is no file at
`target + ".tmp"`; after a `Save` that opened the temporary file and whose
deferred removal did not fail there is none either, whatever later step
failed and whether or not a stale file was there before; when the open fails
the path `target + ".tmp"` is left as it was; and two `Save`s in a row
without faults, started with a stale temporary file, both return nil and
leave no temporary file. -/
theorem save_removes_tmp (d : DiskStore) (perms : Nat) (ft : Faults) (input : Reader)
    (fs : FS) :
    ((d.Save perms ft input fs).2 = none → (d.Save perms ft input fs).1 d.tmpFile = none) ∧
    (ft.openErr = none → ft.removeErr = none →
      (d.Save perms ft input fs).1 d.tmpFile = none) ∧
    (ft.openErr ≠ none → (d.Save perms ft input fs).1 d.tmpFile = fs d.tmpFile) ∧
    (∀ stale data1 data2, fs d.tmpFile = some stale →
      (d.Save perms Faults.none ⟨data1, none⟩ fs).2 = none ∧
      (d.Save perms Faults.none ⟨data1, none⟩ fs).1 d.tmpFile = none ∧
      (d.Save perms Faults.none ⟨data2, none⟩
        (d.Save perms Faults.none ⟨data1, none⟩ fs).1).2 = none ∧
      (d.Save perms Faults.none ⟨data2, none⟩
        (d.Save perms Faults.none ⟨data1, none⟩ fs).1).1 d.tmpFile = none ∧
      (d.Save perms Faults.none ⟨data2, none⟩
        (d.Save perms Faults.none ⟨data1, none⟩ fs).1).1.contentAt d.target = some data2) := by
  have hne := tmpFile_ne_target d
  have hne2 : d.target ≠ d.tmpFile := fun h => hne h.symm
  refine ⟨?_, ?_, ?_, ?_⟩
  · rcases ft with ⟨o, w, cc, sy, c, r, ch, rm⟩
    rcases input with ⟨data, ie⟩
    cases o <;> cases w <;> cases ie <;> cases c <;> cases r <;> cases ch <;> cases rm <;>
      cases hfs : fs d.tmpFile <;>
      simp [DiskStore.Save, DiskStore.saveOpened, osOpenFileTrunc, ioCopy, fdClose, fdSync,
        SafeFileRotate, aclChmod, osRemove, FS.put, FS.del, hfs, hne, hne2]
  · rcases ft with ⟨o, w, cc, sy, c, r, ch, rm⟩
    rcases input with ⟨data, ie⟩
    cases o <;> cases w <;> cases ie <;> cases c <;> cases r <;> cases ch <;> cases rm <;>
      cases hfs : fs d.tmpFile <;>
      simp [DiskStore.Save, DiskStore.saveOpened, osOpenFileTrunc, ioCopy, fdClose, fdSync,
        SafeFileRotate, aclChmod, osRemove, FS.put, FS.del, hfs, hne, hne2]
  · rcases ft with ⟨o, w, cc, sy, c, r, ch, rm⟩
    cases o <;> simp [DiskStore.Save, osOpenFileTrunc]
  · intro stale data1 data2 hfs
    simp [DiskStore.Save, DiskStore.saveOpened, osOpenFileTrunc, ioCopy, fdClose, fdSync,
      SafeFileRotate, aclChmod, osRemove, FS.put, FS.del, FS.contentAt, Faults.none, hfs, hne,
      hne2]

/-- Witness of C9, amended: two `Save`s in a row on `state.yml`, started
with a stale `state.yml.tmp`, both return nil and leave no temporary file. -/
theorem save_removes_tmp_witness :
    ((NewDiskStore "state.yml").Save 384 Faults.none ⟨[1, 2, 3], none⟩ FS.staleTmp).2 = none ∧
    ((NewDiskStore "state.yml").Save 384 Faults.none ⟨[4, 5], none⟩
      ((NewDiskStore "state.yml").Save 384 Faults.none ⟨[1, 2, 3], none⟩
        FS.staleTmp).1).1 (NewDiskStore "state.yml").tmpFile = none :=
  ⟨((save_removes_tmp (NewDiskStore "state.yml") 384 Faults.none ⟨[1, 2, 3], none⟩
      FS.staleTmp).2.2.2 ⟨[9, 9], 384⟩ [1, 2, 3] [4, 5] (by decide)).1,
   ((save_removes_tmp (NewDiskStore "state.yml") 384 Faults.none ⟨[1, 2, 3], none⟩
      FS.staleTmp).2.2.2 ⟨[9, 9], 384⟩ [1, 2, 3] [4, 5] (by decide)).2.2.2.1⟩

end ElasticAgent
